import Mathlib

/-!
Verification development for the profile signal extraction and normalization
pipeline implemented in `supabase/functions/scrape-profile/index.ts`.

JavaScript runtime values that can appear in parsed JSON payloads, plus the
`undefined` value produced by property access, are embedded as `JVal`, with
numbers as exact rationals.  The pipeline stages are translated function by
function from the source file; external effects (the two HTTP fetches, the
WHATWG URL parser, authentication) enter as explicit outcome parameters.
-/

namespace ProfileScrape

/-- JavaScript values reachable in the pipeline: the JSON values plus
`undefined`.  Numbers are exact rationals; every numeric literal the proofs
touch is exactly representable as an IEEE double, so no rounding of the
host number type needs to be modelled. -/
inductive JVal where
  | undefined : JVal
  | null : JVal
  | bool (b : Bool) : JVal
  | num (q : ℚ) : JVal
  | str (s : String) : JVal
  | arr (elems : List JVal) : JVal
  | obj (fields : List (String × JVal)) : JVal

/-- Double-quote character (written via its code point to keep string
literals out of character positions). -/
def quoteC : Char := Char.ofNat 34

/-- Backslash character. -/
def backslashC : Char := Char.ofNat 92

/-- Backtick character, used by the markdown code-fence markers. -/
def fenceC : Char := Char.ofNat 96

/-- Opening curly brace character. -/
def lbraceC : Char := Char.ofNat 123

/-- Closing curly brace character. -/
def rbraceC : Char := Char.ofNat 125

/-- Property lookup in a JavaScript object literal built from a key/value
list: later occurrences of a key overwrite earlier ones, exactly as
duplicate keys behave in `JSON.parse` output and in object spreads. -/
def lookupLast (kvs : List (String × JVal)) (k : String) : Option JVal :=
  kvs.foldl (fun acc kv => if kv.1 = k then some kv.2 else acc) none

/-- JavaScript truthiness.  `JVal.num` never carries NaN (JSON cannot
produce it), so a number is truthy exactly when it is nonzero. -/
def JVal.truthy : JVal → Bool
  | .undefined => false
  | .null => false
  | .bool b => b
  | .num q => !(q == 0)
  | .str s => !(s == "")
  | .arr _ => true
  | .obj _ => true

/-- Whether a value is `null` or `undefined` (the two nullish values that
`??` and `?.` treat specially). -/
def JVal.isNullish : JVal → Bool
  | .null => true
  | .undefined => true
  | _ => false

/-- Plain property access `v.k`.  Returns `none` when the access throws a
TypeError (base value `null` or `undefined`); a primitive base yields
`undefined` for the property names the pipeline reads. -/
def JVal.getProp (v : JVal) (k : String) : Option JVal :=
  match v with
  | .null => none
  | .undefined => none
  | .obj kvs => some ((lookupLast kvs k).getD .undefined)
  | _ => some .undefined

/-- Optional-chaining property access `v?.k`: nullish bases short-circuit
to `undefined` instead of throwing. -/
def JVal.optProp (v : JVal) (k : String) : JVal :=
  match v with
  | .null => .undefined
  | .undefined => .undefined
  | .obj kvs => (lookupLast kvs k).getD .undefined
  | _ => .undefined

/-- Optional-chaining index access `v?.[n]`. -/
def JVal.optIndex (v : JVal) (n : Nat) : JVal :=
  match v with
  | .null => .undefined
  | .undefined => .undefined
  | .arr xs => xs.getD n .undefined
  | .obj kvs => (lookupLast kvs (toString n)).getD .undefined
  | .str s =>
    match s.toList.get? n with
    | some c => .str (String.mk [c])
    | none => .undefined
  | _ => .undefined

/-- Nullish coalescing `a ?? b`. -/
def jvalCoalesce (a b : JVal) : JVal :=
  match a with
  | .null => b
  | .undefined => b
  | _ => a

/-- Numeric value of a JSON digit list, most significant digit first. -/
def digitsVal (ds : List Char) : Nat :=
  ds.foldl (fun acc c => acc * 10 + (c.toNat - 48)) 0

/-- Split a character list into its leading run of ASCII digits and the
rest. -/
def takeDigits (cs : List Char) : List Char × List Char :=
  (cs.takeWhile Char.isDigit, cs.dropWhile Char.isDigit)

/-- JavaScript whitespace as far as `String.prototype.trim` and string
ToNumber are concerned (the ASCII whitespace characters plus no-break
space; the rarer Unicode space characters are not modelled). -/
def isWsC (c : Char) : Bool :=
  c = ' ' || c = '\t' || c = '\n' || c = '\r' || c = Char.ofNat 11 || c = Char.ofNat 12
    || c = Char.ofNat 160

/-- Drop leading and trailing JavaScript whitespace from a character
list. -/
def trimChars (cs : List Char) : List Char :=
  ((cs.dropWhile isWsC).reverse.dropWhile isWsC).reverse

/-- JavaScript `String.prototype.trim`. -/
def jsTrim (s : String) : String :=
  String.mk (trimChars s.toList)

/-- Split a character list at every occurrence of `sep`, keeping empty
pieces — the behaviour of JavaScript `split` with a one-character
separator. -/
def splitChars (sep : Char) : List Char → List (List Char)
  | [] => [[]]
  | c :: cs =>
    let r := splitChars sep cs
    if c = sep then [] :: r
    else
      match r with
      | s :: rest => (c :: s) :: rest
      | [] => [[c]]

/-- Whether a string starts with the character `c` (the source only ever
tests `startsWith('@')`, a single-character prefix). -/
def strStartsWithChar (s : String) (c : Char) : Bool :=
  match s.toList with
  | d :: _ => d = c
  | [] => false

/-- Value of a hexadecimal digit, if the character is one. -/
def hexVal (c : Char) : Option Nat :=
  if ('0' ≤ c ∧ c ≤ '9') then some (c.toNat - 48)
  else if ('a' ≤ c ∧ c ≤ 'f') then some (c.toNat - 87)
  else if ('A' ≤ c ∧ c ≤ 'F') then some (c.toNat - 55)
  else none

/-- Single-character JSON string escapes. -/
def escChar (e : Char) : Option Char :=
  if e = quoteC ∨ e = backslashC ∨ e = '/' then some e
  else if e = 'b' then some (Char.ofNat 8)
  else if e = 'f' then some (Char.ofNat 12)
  else if e = 'n' then some '\n'
  else if e = 'r' then some '\r'
  else if e = 't' then some '\t'
  else none

/-- Parse the body of a JSON string (the opening quote already consumed),
returning the decoded characters and the remaining input. -/
def parseStr : List Char → Option (List Char × List Char)
  | [] => none
  | c :: rest =>
    if c = quoteC then some ([], rest)
    else if c = backslashC then
      match rest with
      | [] => none
      | e :: rest2 =>
        if e = 'u' then
          match rest2 with
          | h1 :: h2 :: h3 :: h4 :: rest3 =>
            match hexVal h1, hexVal h2, hexVal h3, hexVal h4 with
            | some a, some b, some c2, some d2 =>
              (parseStr rest3).map
                (fun p => (Char.ofNat (((a * 16 + b) * 16 + c2) * 16 + d2) :: p.1, p.2))
            | _, _, _, _ => none
          | _ => none
        else
          match escChar e with
          | some ec => (parseStr rest2).map (fun p => (ec :: p.1, p.2))
          | none => none
    else if c.toNat < 32 then none
    else (parseStr rest).map (fun p => (c :: p.1, p.2))

/-- Skip JSON whitespace (space, tab, newline, carriage return). -/
def skipWs : List Char → List Char
  | [] => []
  | c :: cs => if c = ' ' ∨ c = '\t' ∨ c = '\n' ∨ c = '\r' then skipWs cs else c :: cs

/-- Parse the optional fraction and exponent of a JSON number whose integer
part has value `ip`, applying sign `sg`. -/
def parseFracExp (sg : ℚ) (ip : Nat) (cs : List Char) : Option (ℚ × List Char) :=
  let fracRes : Option (ℚ × List Char) :=
    match cs with
    | '.' :: r2 =>
      let fp := takeDigits r2
      if fp.1 = [] then none
      else some ((ip : ℚ) + (digitsVal fp.1 : ℚ) / (10 : ℚ) ^ fp.1.length, fp.2)
    | _ => some ((ip : ℚ), cs)
  match fracRes with
  | none => none
  | some (m, r) =>
    match r with
    | c :: r2 =>
      if c = 'e' ∨ c = 'E' then
        let esr : ℤ × List Char :=
          match r2 with
          | '-' :: rr => (-1, rr)
          | '+' :: rr => (1, rr)
          | _ => (1, r2)
        let ed := takeDigits esr.2
        if ed.1 = [] then none
        else some (sg * m * (10 : ℚ) ^ (esr.1 * (digitsVal ed.1 : ℤ)), ed.2)
      else some (sg * m, c :: r2)
    | [] => some (sg * m, [])

/-- Parse a JSON number literal (strict JSON grammar: no leading zeros, no
leading `+`, fraction and exponent digits required when present). -/
def parseJsonNumber (cs : List Char) : Option (ℚ × List Char) :=
  let sgn : ℚ × List Char :=
    match cs with
    | '-' :: r => (-1, r)
    | _ => (1, cs)
  match sgn.2 with
  | '0' :: r1 => parseFracExp sgn.1 0 r1
  | c :: r1 =>
    if c.isDigit then
      let ds := takeDigits (c :: r1)
      parseFracExp sgn.1 (digitsVal ds.1) ds.2
    else none
  | [] => none

/-- Check that a literal keyword follows, returning the remaining input. -/
def expectLit (lit : List Char) (cs : List Char) : Option (List Char) :=
  if lit.isPrefixOf cs then some (cs.drop lit.length) else none

mutual

/-- Fuel-indexed recursive-descent parser for a single JSON value.  The
fuel only bounds nesting depth; `jsonParse` supplies enough for any input. -/
def parseVal : Nat → List Char → Option (JVal × List Char)
  | 0, _ => none
  | Nat.succ fuel, cs =>
    match skipWs cs with
    | [] => none
    | c :: rest =>
      if c = quoteC then
        match parseStr rest with
        | some (s, r) => some (.str (String.mk s), r)
        | none => none
      else if c = '[' then
        match skipWs rest with
        | ']' :: r2 => some (.arr [], r2)
        | r2 =>
          match parseVal fuel r2 with
          | some (v, r3) =>
            match parseArrTail fuel r3 with
            | some (vs, r4) => some (.arr (v :: vs), r4)
            | none => none
          | none => none
      else if c = lbraceC then
        match skipWs rest with
        | r2 =>
          match r2 with
          | c2 :: r3 =>
            if c2 = rbraceC then some (.obj [], r3)
            else
              match parseMember fuel (c2 :: r3) with
              | some (kv, r4) =>
                match parseObjTail fuel r4 with
                | some (kvs, r5) => some (.obj (kv :: kvs), r5)
                | none => none
              | none => none
          | [] => none
      else if c = 'n' then
        match expectLit ['u', 'l', 'l'] rest with
        | some r => some (.null, r)
        | none => none
      else if c = 't' then
        match expectLit ['r', 'u', 'e'] rest with
        | some r => some (.bool true, r)
        | none => none
      else if c = 'f' then
        match expectLit ['a', 'l', 's', 'e'] rest with
        | some r => some (.bool false, r)
        | none => none
      else
        match parseJsonNumber (c :: rest) with
        | some (q, r) => some (.num q, r)
        | none => none

/-- Parse one `"key": value` member of a JSON object. -/
def parseMember : Nat → List Char → Option ((String × JVal) × List Char)
  | 0, _ => none
  | Nat.succ fuel, cs =>
    match skipWs cs with
    | c :: r =>
      if c = quoteC then
        match parseStr r with
        | some (k, r2) =>
          match skipWs r2 with
          | ':' :: r3 =>
            match parseVal fuel r3 with
            | some (v, r4) => some ((String.mk k, v), r4)
            | none => none
          | _ => none
        | none => none
      else none
    | [] => none

/-- Parse the continuation of a JSON array after its first element. -/
def parseArrTail : Nat → List Char → Option (List JVal × List Char)
  | 0, _ => none
  | Nat.succ fuel, cs =>
    match skipWs cs with
    | ']' :: r => some ([], r)
    | ',' :: r =>
      match parseVal fuel r with
      | some (v, r2) =>
        match parseArrTail fuel r2 with
        | some (vs, r3) => some (v :: vs, r3)
        | none => none
      | none => none
    | _ => none

/-- Parse the continuation of a JSON object after its first member. -/
def parseObjTail : Nat → List Char → Option (List (String × JVal) × List Char)
  | 0, _ => none
  | Nat.succ fuel, cs =>
    match skipWs cs with
    | c :: r =>
      if c = rbraceC then some ([], r)
      else if c = ',' then
        match parseMember fuel r with
        | some (kv, r2) =>
          match parseObjTail fuel r2 with
          | some (kvs, r3) => some (kv :: kvs, r3)
          | none => none
        | none => none
      else none
    | [] => none

end

/-- The host `JSON.parse`: one JSON value followed only by whitespace;
anything else rejects (models the exception as `none`). -/
def jsonParse (s : String) : Option JVal :=
  match parseVal (s.toList.length + 1) s.toList with
  | some (v, rest) => if skipWs rest = [] then some v else none
  | none => none

/-- Remove the first occurrence of substring `pat` (nonempty in all uses)
from a character list — the behaviour of JavaScript
`String.prototype.replace` with a string pattern and empty replacement:
only the first occurrence, anywhere in the string, is removed. -/
def removeFirstSub (pat : List Char) : List Char → List Char
  | [] => []
  | c :: cs =>
    if pat.isPrefixOf (c :: cs) ∧ pat ≠ [] then cs.drop (pat.length - 1)
    else c :: removeFirstSub pat cs

/-- The source's `username.replace(pat, '')` for a string pattern. -/
def jsReplaceEmpty (s pat : String) : String :=
  String.mk (removeFirstSub pat.toList s.toList)

/-- Whether `pat` occurs as a contiguous sublist of the second argument. -/
def hasSublist (pat : List Char) : List Char → Bool
  | [] => pat.isEmpty
  | c :: cs => pat.isPrefixOf (c :: cs) || hasSublist pat cs

/-- JavaScript `String.prototype.includes`. -/
def jsIncludes (s pat : String) : Bool :=
  hasSublist pat.toList s.toList

/-- Number of ASCII digit characters in a string — the value of
`(s.match(/\d/g) || []).length` in the source. -/
def countDigits (s : String) : Nat :=
  (s.toList.filter (fun c => c.isDigit)).length

/-- Remove every occurrence of `pat` (plus one directly following newline,
mirroring the `\n?` in the source regexes) from a character list, scanning
left to right; `fuel` is at least the list length in all uses. -/
def stripPatNL (pat : List Char) : Nat → List Char → List Char
  | 0, cs => cs
  | _ + 1, [] => []
  | Nat.succ fuel, c :: cs =>
    if pat.isPrefixOf (c :: cs) ∧ pat ≠ [] then
      stripPatNL pat fuel
        (match cs.drop (pat.length - 1) with
          | '\n' :: r => r
          | r => r)
    else c :: stripPatNL pat fuel cs

/-- The three-backtick code-fence marker. -/
def fencePat : List Char := [fenceC, fenceC, fenceC]

/-- The labeled code-fence marker followed by the json language tag. -/
def jsonFencePat : List Char := fencePat ++ ['j', 's', 'o', 'n']

/-- Strip markdown code fences from model output, as in the source: first
replace all occurrences of the labeled fence with optional trailing
newline, then all bare fences with optional trailing newline, then trim. -/
def stripCodeFences (s : String) : String :=
  let l1 := stripPatNL jsonFencePat (s.toList.length + 1) s.toList
  let l2 := stripPatNL fencePat (l1.length + 1) l1
  jsTrim (String.mk l2)

/-- JavaScript `Math.round` on a finite number: round half toward
positive infinity, i.e. the floor of `q + 1/2`. -/
def jsRound (q : ℚ) : ℤ :=
  Int.floor (q + 1 / 2)

/-- ToNumber coercion of a string (used by `Math.round` on a merged field
that happens to hold a string).  JavaScript accepts a trimmed optional-sign
decimal literal and turns anything else into NaN (`none` here); the less
common numeric forms (hex/octal/binary literals, `Infinity`) are also
conservatively mapped to `none` — no claim touches them. -/
def strToNumber (s : String) : Option ℚ :=
  match trimChars s.toList with
  | [] => some 0
  | cs =>
    let sgn : ℚ × List Char :=
      match cs with
      | '-' :: r => (-1, r)
      | '+' :: r => (1, r)
      | _ => (1, cs)
    let ip := takeDigits sgn.2
    let core : Option (ℚ × List Char) :=
      match ip.2 with
      | '.' :: r2 =>
        let fp := takeDigits r2
        if ip.1 = [] ∧ fp.1 = [] then none
        else some ((digitsVal ip.1 : ℚ) + (digitsVal fp.1 : ℚ) / (10 : ℚ) ^ fp.1.length, fp.2)
      | r1 => if ip.1 = [] then none else some ((digitsVal ip.1 : ℚ), r1)
    match core with
    | none => none
    | some (m, rest) =>
      match rest with
      | [] => some (sgn.1 * m)
      | e :: r2 =>
        if e = 'e' ∨ e = 'E' then
          let esr : ℤ × List Char :=
            match r2 with
            | '-' :: rr => (-1, rr)
            | '+' :: rr => (1, rr)
            | _ => (1, r2)
          let ed := takeDigits esr.2
          if ed.1 = [] ∨ ed.2 ≠ [] then none
          else some (sgn.1 * m * (10 : ℚ) ^ (esr.1 * (digitsVal ed.1 : ℤ)))
        else none

/-- ToNumber coercion of a JavaScript value, as applied by `Math.round`;
`none` models NaN.  Array coercion (which goes through string conversion)
is conservatively mapped to NaN; no claim depends on it. -/
def toNumber : JVal → Option ℚ
  | .undefined => none
  | .null => some 0
  | .bool b => some (if b then 1 else 0)
  | .num q => some q
  | .str s => strToNumber s
  | .arr _ => none
  | .obj _ => none

/-- The source's `Math.max(0, Math.round(v))` applied to a merged count
field: NaN (`none`) propagates through both calls. -/
def clampCount (v : JVal) : Option ℤ :=
  (toNumber v).map (fun q => max 0 (jsRound q))

/-- Whether `v.slice(...)` is callable: strings and arrays have a `slice`
method; calling it on any other value throws a TypeError. -/
def sliceable : JVal → Bool
  | .str _ => true
  | .arr _ => true
  | _ => false

/-- The source's `detectPlatform` (index.ts:10-19): ordered substring
tests, first match wins, `Unknown` when none match. -/
def detectPlatform (url : String) : String :=
  if jsIncludes url ("instagram.com") then ("Instagram")
  else if jsIncludes url ("twitter.com") || jsIncludes url ("x.com") then ("Twitter/X")
  else if jsIncludes url ("tiktok.com") then ("TikTok")
  else if jsIncludes url ("facebook.com") then ("Facebook")
  else if jsIncludes url ("linkedin.com") then ("LinkedIn")
  else if jsIncludes url ("reddit.com") then ("Reddit")
  else if jsIncludes url ("youtube.com") then ("YouTube")
  else ("Unknown")

/-- The stoplist of generic path segments skipped by username inference
(index.ts:27). -/
def skipSegments : List String :=
  ["user", "users", "u", "profile", "in", "channel", "c"]

/-- The predicate of the `parts.find(...)` call in index.ts:28. -/
def keepSegment (p : String) : Bool :=
  !(skipSegments.contains p) && !(strStartsWithChar p '@')

/-- Split a pathname on `/` and drop empty segments — the
`parsed.pathname.split('/').filter(Boolean)` of index.ts:25. -/
def splitSegments (pathname : String) : List String :=
  ((splitChars '/' pathname.toList).map String.mk).filter (fun s => !s.isEmpty)

/-- Lines 27-29 of index.ts applied to the split path segments: first
non-stoplist non-`@` segment, else the first segment, else the literal
`unknown`; finally `.replace('@', '')`. -/
def selectUsername (parts : List String) : String :=
  let base :=
    match parts.find? keepSegment with
    | some u => u
    | none => parts.headD ("unknown")
  jsReplaceEmpty base ("@")

/-- The source's `extractUsername` (index.ts:22-33).  The WHATWG URL
parser is a host facility; it is abstracted as the optional pathname the
`new URL(url)` call produced (`none` models the constructor throwing,
which the source catches and maps to `unknown`). -/
def extractUsername (parsedPath : Option String) : String :=
  match parsedPath with
  | some pathname => selectUsername (splitSegments pathname)
  | none => ("unknown")

/-- The mutable `extractedData` object of index.ts:157-169 and its later
merged versions: the eleven fields the pipeline reads, each holding an
arbitrary JavaScript value after a shallow merge with parsed model
output. -/
structure ExtractedData where
  username : JVal
  followers_count : JVal
  following_count : JVal
  posts_count : JVal
  bio_length : JVal
  account_age : JVal
  has_profile_pic : JVal
  username_flags : JVal
  platform : JVal
  confidence : JVal
  notes : JVal

/-- The hard-coded default instance (index.ts:157-169). -/
def defaultExtractedData (usernameFromUrl platform : String) : ExtractedData where
  username := .str usernameFromUrl
  followers_count := .num 0
  following_count := .num 0
  posts_count := .num 0
  bio_length := .num 0
  account_age := .num 0
  has_profile_pic := .bool true
  username_flags := .obj
    [("numbers_heavy", .bool false), ("random_characters", .bool false),
      ("very_short", .bool false)]
  platform := .str platform
  confidence := .str ("low")
  notes := .str ("Could not extract data from the page")

/-- The spread merge `{ ...extractedData, ...parsed }` of index.ts:197,
projected to the eleven fields the pipeline reads.  Spreading a non-object
primitive contributes no properties, and spreading a string or array
contributes only numeric-index keys, so in all non-object cases the named
fields keep their current values. -/
def mergeExtracted (d : ExtractedData) (p : JVal) : ExtractedData :=
  match p with
  | .obj kvs =>
    { username := (lookupLast kvs ("username")).getD d.username
      followers_count := (lookupLast kvs ("followers_count")).getD d.followers_count
      following_count := (lookupLast kvs ("following_count")).getD d.following_count
      posts_count := (lookupLast kvs ("posts_count")).getD d.posts_count
      bio_length := (lookupLast kvs ("bio_length")).getD d.bio_length
      account_age := (lookupLast kvs ("account_age")).getD d.account_age
      has_profile_pic := (lookupLast kvs ("has_profile_pic")).getD d.has_profile_pic
      username_flags := (lookupLast kvs ("username_flags")).getD d.username_flags
      platform := (lookupLast kvs ("platform")).getD d.platform
      confidence := (lookupLast kvs ("confidence")).getD d.confidence
      notes := (lookupLast kvs ("notes")).getD d.notes }
  | _ => d

/-- Lines 190-201 of index.ts applied to a string `rawContent`: strip code
fences, `JSON.parse`, and on success merge over the current
`extractedData`; a parse failure leaves it unchanged (the inner catch). -/
def processRawContent (raw : String) (d : ExtractedData) : ExtractedData :=
  match jsonParse (stripCodeFences raw) with
  | some p => mergeExtracted d p
  | none => d

/-- Outcome of the completion-service call (index.ts:172-183), supplied to
the model as an oracle: the fetch can throw, the response can be non-ok,
`aiRes.json()` can throw, or a parsed JSON body is available. -/
inductive AiOutcome where
  | transportError : AiOutcome
  | httpError : AiOutcome
  | badJson : AiOutcome
  | ok (body : JVal) : AiOutcome

/-- Whether the completion call failed outright (transport error or
non-success HTTP status), before any content could be examined. -/
def AiOutcome.failed : AiOutcome → Bool
  | .ok _ => false
  | _ => true

/-- The whole extraction stage (the try/catch of index.ts:171-207): every
failure path — transport error, non-ok status, body JSON error, a nullish
body making `aiData.choices` throw, non-string content making
`rawContent.replace` throw, or a parse failure — leaves `extractedData`
unchanged. -/
def extractAi (a : AiOutcome) (d : ExtractedData) : ExtractedData :=
  match a with
  | .transportError => d
  | .httpError => d
  | .badJson => d
  | .ok body =>
    match body.getProp ("choices") with
    | none => d
    | some choices =>
      let raw := jvalCoalesce (((choices.optIndex 0).optProp ("message")).optProp ("content"))
        (.str "")
      match raw with
      | .str s => processRawContent s d
      | _ => d

/-- Outcome of the scraping-service call (index.ts:92-106): the fetch or
`scrapeRes.json()` can throw, or a response with its `ok` flag and parsed
JSON payload is available. -/
inductive ScrapeOutcome where
  | transportError : ScrapeOutcome
  | reply (ok : Bool) (payload : JVal) : ScrapeOutcome

/-- The scrape stage (index.ts:88-121), returning the final values of
`scrapedMarkdown` and `scrapedLinks`.  A thrown fetch, a body JSON error,
or a nullish payload (making `scrapeData.success` throw inside the try)
leaves the initial `''` and `[]`; otherwise the markdown is salvaged from
the payload in both the success and the failure branch, and the links only
in the success branch. -/
def scrapeStage : ScrapeOutcome → JVal × JVal
  | .transportError => (.str "", .arr [])
  | .reply ok payload =>
    match payload.getProp ("success") with
    | none => (.str "", .arr [])
    | some succ =>
      let dataV := (payload.getProp ("data")).getD .undefined
      let md := jvalCoalesce (dataV.optProp ("markdown"))
        (jvalCoalesce ((payload.getProp ("markdown")).getD .undefined) (.str ""))
      if ok && succ.truthy then
        let links := jvalCoalesce (dataV.optProp ("links"))
          (jvalCoalesce ((payload.getProp ("links")).getD .undefined) (.arr []))
        (md, links)
      else (md, .arr [])

/-- The recomputed `username_flags` object of the response
(index.ts:212-217).  The fields hold `JVal`s because `a || b || false`
returns the first truthy operand itself, which need not be a boolean. -/
structure FlagsOut where
  numbers_heavy : JVal
  no_profile_pic : JVal
  random_characters : JVal
  very_short : JVal

/-- The `profile` object of the response (index.ts:224-232); count fields
are `none` when `Math.max(0, Math.round(...))` produced NaN (which
`JSON.stringify` would serialize as `null`). -/
structure ProfileOut where
  username : String
  followers_count : Option ℤ
  following_count : Option ℤ
  posts_count : Option ℤ
  bio_length : Option ℤ
  account_age : Option ℤ
  username_flags : FlagsOut

/-- The success response payload (index.ts:219-233). -/
structure FinalResponse where
  success : Bool
  platform : JVal
  confidence : JVal
  notes : JVal
  profile : ProfileOut

/-- Step 3 and the response assembly (index.ts:209-235).  Returns `none`
when the resolved username is not a string, in which case
`username.match(/\d/g)` throws a TypeError that escapes to the outer
catch.  String length is measured in code points; the scenarios proved
here involve only ASCII, where this agrees with the UTF-16 length used by
JavaScript. -/
def normalizeStep (d : ExtractedData) (usernameFromUrl : String) : Option FinalResponse :=
  let usernameV := if d.username.truthy then d.username else JVal.str usernameFromUrl
  match usernameV with
  | .str username =>
    let numberCount := countDigits username
    let nh := d.username_flags.optProp ("numbers_heavy")
    let rc := d.username_flags.optProp ("random_characters")
    let vs := d.username_flags.optProp ("very_short")
    some
      { success := true
        platform := d.platform
        confidence := d.confidence
        notes := d.notes
        profile :=
          { username := username
            followers_count := clampCount d.followers_count
            following_count := clampCount d.following_count
            posts_count := clampCount d.posts_count
            bio_length := clampCount d.bio_length
            account_age := clampCount d.account_age
            username_flags :=
              { numbers_heavy :=
                  if 4 ≤ numberCount then JVal.bool true
                  else if nh.truthy then nh else JVal.bool false
                no_profile_pic := JVal.bool (!d.has_profile_pic.truthy)
                random_characters := if rc.truthy then rc else JVal.bool false
                very_short :=
                  if username.length ≤ 3 then JVal.bool true
                  else if vs.truthy then vs else JVal.bool false } } }
  | _ => none

/-- Request-level inputs of one invocation: the authentication checks, the
parsed request body (`none` models `req.json()` throwing), and whether the
two service credentials are configured (truthy env values). -/
structure RequestCtx where
  hasAuthHeader : Bool
  authValid : Bool
  body : Option JVal
  hasFirecrawlKey : Bool
  hasLovableKey : Bool

/-- A response sent back to the caller: either an error payload with an
HTTP status or the success payload. -/
inductive HandlerResult where
  | errorResp (status : Nat) (message : String) : HandlerResult
  | successResp (r : FinalResponse) : HandlerResult

/-- The request handler (index.ts:35-243) minus the CORS preflight branch,
over the abstracted URL parser `parsePath` and the two external-call
outcomes.  Internal throws — `req.json()` failing, destructuring `url`
from a nullish body, `url.includes` on a non-string url, `.slice` on
non-sliceable salvaged markdown, `username.match` on a non-string resolved
username — are absorbed by the outer catch into the generic 500.  (An
Array-valued `url`, which would supply its own `includes`, is outside the
modelled input space.) -/
def handleRequest (parsePath : String → Option String) (ctx : RequestCtx)
    (scrapeOut : ScrapeOutcome) (aiOut : AiOutcome) : HandlerResult :=
  if !ctx.hasAuthHeader then .errorResp 401 ("Unauthorized")
  else if !ctx.authValid then .errorResp 401 ("Invalid token")
  else
    match ctx.body with
    | none => .errorResp 500 ("Internal server error")
    | some b =>
      match b.getProp ("url") with
      | none => .errorResp 500 ("Internal server error")
      | some urlV =>
        if !urlV.truthy then .errorResp 400 ("Profile URL is required")
        else if !ctx.hasFirecrawlKey then .errorResp 500 ("Firecrawl not configured")
        else if !ctx.hasLovableKey then .errorResp 500 ("AI gateway not configured")
        else
          match urlV with
          | .str profileUrl =>
            let platform := detectPlatform profileUrl
            let usernameFromUrl := extractUsername (parsePath profileUrl)
            let scraped := scrapeStage scrapeOut
            if !(sliceable scraped.1) then .errorResp 500 ("Internal server error")
            else
              let extracted := extractAi aiOut (defaultExtractedData usernameFromUrl platform)
              match normalizeStep extracted usernameFromUrl with
              | some resp => .successResp resp
              | none => .errorResp 500 ("Internal server error")
          | _ => .errorResp 500 ("Internal server error")

/-- Whether a value is a boolean. -/
def isBoolJ : JVal → Bool
  | .bool _ => true
  | _ => false

/-- Whether a value is a string. -/
def isStrJ : JVal → Bool
  | .str _ => true
  | _ => false

/-- Whether a value is a non-negative integer number. -/
def isNonnegIntJ : JVal → Bool
  | .num q => decide (0 ≤ q) && (q.den == 1)
  | _ => false

/-- Whether a value is one of the documented confidence labels. -/
def isConfidenceJ : JVal → Bool
  | .str s => (s == ("high")) || (s == ("medium")) || (s == ("low"))
  | _ => false

/-- Whether the flags object has key `k` bound to a boolean. -/
def flagIsBool (kvs : List (String × JVal)) (k : String) : Bool :=
  match lookupLast kvs k with
  | some (.bool _) => true
  | _ => false

/-- Formalizes the documented `ExtractedProfile` schema of the
specification (section 3): all eleven fields present with their documented
types, numeric fields non-negative integers, and all three nested
`username_flags` booleans present. -/
def isWellFormedExtracted (e : ExtractedData) : Bool :=
  isStrJ e.username && isNonnegIntJ e.followers_count && isNonnegIntJ e.following_count
    && isNonnegIntJ e.posts_count && isNonnegIntJ e.bio_length && isNonnegIntJ e.account_age
    && isBoolJ e.has_profile_pic
    && (match e.username_flags with
        | .obj kvs =>
          flagIsBool kvs ("numbers_heavy") && flagIsBool kvs ("random_characters")
            && flagIsBool kvs ("very_short")
        | _ => false)
    && isStrJ e.platform && isConfidenceJ e.confidence && isStrJ e.notes

/-- The precondition checks of the handler (index.ts:41-80), mirrored as a
standalone function of the request context alone: the error such a check
produces, if any.  Body-parse failures and non-string urls are not
precondition errors (they surface as the generic catch-all), so they map
to `none` here. -/
def precondError (ctx : RequestCtx) : Option HandlerResult :=
  if !ctx.hasAuthHeader then some (.errorResp 401 ("Unauthorized"))
  else if !ctx.authValid then some (.errorResp 401 ("Invalid token"))
  else
    match ctx.body with
    | none => none
    | some b =>
      match b.getProp ("url") with
      | none => none
      | some urlV =>
        if !urlV.truthy then some (.errorResp 400 ("Profile URL is required"))
        else if !ctx.hasFirecrawlKey then some (.errorResp 500 ("Firecrawl not configured"))
        else if !ctx.hasLovableKey then some (.errorResp 500 ("AI gateway not configured"))
        else none

/-- The response shapes the caller can ever observe: a success envelope
with `success = true`, one of the five precondition error payloads, or the
generic internal error. -/
def allowedResult : HandlerResult → Bool
  | .successResp r => r.success
  | .errorResp 401 m => (m == ("Unauthorized")) || (m == ("Invalid token"))
  | .errorResp 400 m => m == ("Profile URL is required")
  | .errorResp 500 m =>
    (m == ("Firecrawl not configured")) || (m == ("AI gateway not configured"))
      || (m == ("Internal server error"))
  | .errorResp _ _ => false

/-- The response produced when the default `ExtractedProfile` flows
through the normalizer unchanged: all counts zero, `confidence` low,
`no_profile_pic` false, and the URL-derived username with its recomputed
digit-count and length flags. -/
def defaultResponse (usernameFromUrl platform : String) : FinalResponse where
  success := true
  platform := .str platform
  confidence := .str ("low")
  notes := .str ("Could not extract data from the page")
  profile :=
    { username := usernameFromUrl
      followers_count := some 0
      following_count := some 0
      posts_count := some 0
      bio_length := some 0
      account_age := some 0
      username_flags :=
        { numbers_heavy :=
            if 4 ≤ countDigits usernameFromUrl then JVal.bool true else JVal.bool false
          no_profile_pic := .bool false
          random_characters := .bool false
          very_short :=
            if usernameFromUrl.length ≤ 3 then JVal.bool true else JVal.bool false } }

/-- Default extraction record for the concrete scenarios below. -/
def dfltEx : ExtractedData := defaultExtractedData ("alice") ("Instagram")

/-- Model output wrapped in a labeled code fence around non-JSON text. -/
def rawLabeled : String :=
  String.mk jsonFencePat ++ "\n\x7bnot valid json\x7d\n" ++ String.mk fencePat

/-- Model output wrapped in an unlabeled code fence around truncated JSON. -/
def rawUnlabeled : String :=
  String.mk fencePat ++ "\n[1, 2\n" ++ String.mk fencePat

/-- Syntactically valid JSON whose `username_flags` is an empty object. -/
def sC2 : String := "\x7b\"username_flags\": \x7b\x7d\x7d"

/-- The parsed value of `sC2`. -/
def pC2 : JVal := .obj [(("username_flags"), .obj [])]

/-- Syntactically valid JSON giving a count field the string `1.2M`. -/
def mTextC10 : String := "\x7b\"followers_count\": \"1.2M\"\x7d"

/-- A completion-service body whose message content is `mTextC10`. -/
def aiBodyC10 : JVal :=
  .obj [(("choices"), .arr [.obj [(("message"), .obj [(("content"), .str mTextC10)])]])]

/-- Concrete URL-parser oracle used by the closed scenarios. -/
def ppEx : String → Option String := fun _ => some ("/alice")

/-- Concrete profile URL used by the closed scenarios. -/
def urlEx : String := "https://instagram.com/alice"

/-- Request context satisfying every precondition check. -/
def ctxEx : RequestCtx :=
  ⟨true, true, some (.obj [(("url"), .str urlEx)]), true, true⟩

/-- A scrape payload carrying a failure flag and a non-string markdown
value. -/
def badScrapePayload : JVal :=
  .obj [(("success"), .bool false), (("markdown"), .num 123)]

/-- A scrape payload carrying a failure flag and salvageable markdown. -/
def salvagePayload : List (String × JVal) :=
  [(("success"), .bool false), (("markdown"), .str ("partial page text"))]

/-- Extraction record for the flag-recomputation scenario: username with
three digits, model flags claiming only `random_characters`. -/
def dC5 : ExtractedData :=
  { dfltEx with
    username := .str ("john123")
    username_flags := .obj
      [(("numbers_heavy"), .bool false), (("random_characters"), .bool true),
        (("very_short"), .bool false)] }

/-- Extraction record for the count-clamping scenario: a negative count, a
large integer count, and a fractional count. -/
def dC6 : ExtractedData :=
  { dfltEx with
    followers_count := .num (-5)
    following_count := .num 1200000
    posts_count := .num (5 / 2) }

/-- Nullish coalescing keeps a non-nullish left operand. -/
theorem jvalCoalesce_not_nullish (m b : JVal) (h : m.isNullish = false) :
    jvalCoalesce m b = m := by
  cases m <;> simp_all [jvalCoalesce, JVal.isNullish]

/-- Every response the normalizer produces carries `success = true`. -/
theorem normalizeStep_success (d : ExtractedData) (u : String) (r : FinalResponse)
    (h : normalizeStep d u = some r) : r.success = true := by
  unfold normalizeStep at h
  split at h
  · dsimp only [] at h
    split at h
    · cases h
      rfl
    · cases h
  · dsimp only [] at h
    cases h
    rfl

/-- A failed completion call leaves the extraction record unchanged. -/
theorem extractAi_failed (a : AiOutcome) (d : ExtractedData) (h : a.failed = true) :
    extractAi a d = d := by
  cases a <;> simp_all [extractAi, AiOutcome.failed]

/-- C7: platform classification applies ordered substring tests in the
fixed priority order Instagram, Twitter/X, TikTok, Facebook, LinkedIn,
Reddit, YouTube with first match winning, and returns Unknown when none
match; consequently every URL string containing `instagram.com` is
classified as Instagram regardless of path or query string. -/
theorem claim7_platform_priority (url : String) :
    (jsIncludes url ("instagram.com") = true → detectPlatform url = ("Instagram")) ∧
    (jsIncludes url ("instagram.com") = false →
      (jsIncludes url ("twitter.com") || jsIncludes url ("x.com")) = true →
      detectPlatform url = ("Twitter/X")) ∧
    (jsIncludes url ("instagram.com") = false →
      (jsIncludes url ("twitter.com") || jsIncludes url ("x.com")) = false →
      jsIncludes url ("tiktok.com") = true → detectPlatform url = ("TikTok")) ∧
    (jsIncludes url ("instagram.com") = false →
      (jsIncludes url ("twitter.com") || jsIncludes url ("x.com")) = false →
      jsIncludes url ("tiktok.com") = false →
      jsIncludes url ("facebook.com") = true → detectPlatform url = ("Facebook")) ∧
    (jsIncludes url ("instagram.com") = false →
      (jsIncludes url ("twitter.com") || jsIncludes url ("x.com")) = false →
      jsIncludes url ("tiktok.com") = false → jsIncludes url ("facebook.com") = false →
      jsIncludes url ("linkedin.com") = true → detectPlatform url = ("LinkedIn")) ∧
    (jsIncludes url ("instagram.com") = false →
      (jsIncludes url ("twitter.com") || jsIncludes url ("x.com")) = false →
      jsIncludes url ("tiktok.com") = false → jsIncludes url ("facebook.com") = false →
      jsIncludes url ("linkedin.com") = false →
      jsIncludes url ("reddit.com") = true → detectPlatform url = ("Reddit")) ∧
    (jsIncludes url ("instagram.com") = false →
      (jsIncludes url ("twitter.com") || jsIncludes url ("x.com")) = false →
      jsIncludes url ("tiktok.com") = false → jsIncludes url ("facebook.com") = false →
      jsIncludes url ("linkedin.com") = false → jsIncludes url ("reddit.com") = false →
      jsIncludes url ("youtube.com") = true → detectPlatform url = ("YouTube")) ∧
    (jsIncludes url ("instagram.com") = false →
      (jsIncludes url ("twitter.com") || jsIncludes url ("x.com")) = false →
      jsIncludes url ("tiktok.com") = false → jsIncludes url ("facebook.com") = false →
      jsIncludes url ("linkedin.com") = false → jsIncludes url ("reddit.com") = false →
      jsIncludes url ("youtube.com") = false → detectPlatform url = ("Unknown")) := by
  refine ⟨?_, ?_, ?_, ?_, ?_, ?_, ?_, ?_⟩ <;> intros <;> simp_all [detectPlatform]

/-- Witness for C7 at a concrete Instagram URL with path and query. -/
theorem claim7_platform_priority_witness :
    jsIncludes ("https://instagram.com/p/abc?x=1") ("instagram.com") = true ∧
    detectPlatform ("https://instagram.com/p/abc?x=1") = ("Instagram") :=
  ⟨rfl, (claim7_platform_priority ("https://instagram.com/p/abc?x=1")).1 rfl⟩

/-- C4: model responses wrapped in labeled or unlabeled code fences are
stripped before parsing, and a failed JSON parse of the stripped text
leaves the default `ExtractedProfile` unchanged instead of throwing or
propagating a partial object. -/
theorem claim4_parse_fallback :
    (∀ (d : ExtractedData) (raw : String),
      jsonParse (stripCodeFences raw) = none → processRawContent raw d = d) ∧
    stripCodeFences rawLabeled = ("\x7bnot valid json\x7d") ∧
    stripCodeFences rawUnlabeled = ("[1, 2") := by
  refine ⟨?_, rfl, rfl⟩
  intro d raw h
  unfold processRawContent
  rw [h]

/-- Witness for C4 at the concrete fenced non-JSON model output. -/
theorem claim4_parse_fallback_witness :
    jsonParse (stripCodeFences rawLabeled) = none ∧
    processRawContent rawLabeled dfltEx = dfltEx :=
  ⟨rfl, claim4_parse_fallback.1 dfltEx rawLabeled rfl⟩

/-- C10: a syntactically valid JSON model response can give a count field
the non-numeric string `1.2M`; the shallow merge keeps it, and the
normalizer's round-and-clamp produces NaN (`none`) for that field of the
still-successful response, violating the integer output schema — while
for number-valued fields the clamp always yields a non-negative integer,
so the guarantee holds exactly under that precondition. -/
theorem claim10_nan_escape :
    (jsonParse mTextC10).isSome = true ∧
    (extractAi (.ok aiBodyC10) dfltEx).followers_count = JVal.str ("1.2M") ∧
    (∃ r, normalizeStep (extractAi (.ok aiBodyC10) dfltEx) ("alice") = some r ∧
      r.success = true ∧ r.profile.followers_count = none) ∧
    (∀ q : ℚ, clampCount (.num q) = some (max 0 (jsRound q)) ∧ (0 : ℤ) ≤ max 0 (jsRound q)) := by
  refine ⟨rfl, rfl, ⟨_, rfl, rfl, rfl⟩, ?_⟩
  intro q
  exact ⟨rfl, le_max_left 0 _⟩

/-- C2 counterexample: the syntactically valid model response
`{"username_flags": {}}` is accepted, and the shallow merge hands the
normalizer a value that is neither a complete well-formed instance of the
documented schema (the three nested flag booleans are missing) nor the
fixed default instance. -/
theorem claim2_counterexample :
    jsonParse sC2 = some pC2 ∧
    (mergeExtracted dfltEx pC2).username_flags = JVal.obj [] ∧
    isWellFormedExtracted (mergeExtracted dfltEx pC2) = false ∧
    isWellFormedExtracted dfltEx = true ∧
    mergeExtracted dfltEx pC2 ≠ dfltEx := by
  refine ⟨rfl, rfl, rfl, rfl, ?_⟩
  intro h
  have h2 := congrArg ExtractedData.username_flags h
  rw [show (mergeExtracted dfltEx pC2).username_flags = JVal.obj [] from rfl] at h2
  rw [show dfltEx.username_flags = JVal.obj
    [(("numbers_heavy"), JVal.bool false), (("random_characters"), JVal.bool false),
      (("very_short"), JVal.bool false)] from rfl] at h2
  injection h2 with h3
  exact List.noConfusion h3

/-- C2 amended: the merge is exactly a shallow field-by-field override —
every one of the eleven top-level fields takes the parsed object's value
for that key when present and keeps the current value otherwise, and a
non-object parse result leaves the record unchanged; the merged value need
not be well-formed or equal to the default. -/
theorem claim2_merge_shallow :
    (∀ (d : ExtractedData) (kvs : List (String × JVal)),
      (mergeExtracted d (.obj kvs)).username = (lookupLast kvs ("username")).getD d.username ∧
      (mergeExtracted d (.obj kvs)).followers_count
        = (lookupLast kvs ("followers_count")).getD d.followers_count ∧
      (mergeExtracted d (.obj kvs)).following_count
        = (lookupLast kvs ("following_count")).getD d.following_count ∧
      (mergeExtracted d (.obj kvs)).posts_count
        = (lookupLast kvs ("posts_count")).getD d.posts_count ∧
      (mergeExtracted d (.obj kvs)).bio_length
        = (lookupLast kvs ("bio_length")).getD d.bio_length ∧
      (mergeExtracted d (.obj kvs)).account_age
        = (lookupLast kvs ("account_age")).getD d.account_age ∧
      (mergeExtracted d (.obj kvs)).has_profile_pic
        = (lookupLast kvs ("has_profile_pic")).getD d.has_profile_pic ∧
      (mergeExtracted d (.obj kvs)).username_flags
        = (lookupLast kvs ("username_flags")).getD d.username_flags ∧
      (mergeExtracted d (.obj kvs)).platform
        = (lookupLast kvs ("platform")).getD d.platform ∧
      (mergeExtracted d (.obj kvs)).confidence
        = (lookupLast kvs ("confidence")).getD d.confidence ∧
      (mergeExtracted d (.obj kvs)).notes = (lookupLast kvs ("notes")).getD d.notes) ∧
    (∀ d : ExtractedData, mergeExtracted d .null = d ∧ mergeExtracted d .undefined = d) ∧
    (∀ (d : ExtractedData) (b : Bool), mergeExtracted d (.bool b) = d) ∧
    (∀ (d : ExtractedData) (q : ℚ), mergeExtracted d (.num q) = d) ∧
    (∀ (d : ExtractedData) (s : String), mergeExtracted d (.str s) = d) ∧
    (∀ (d : ExtractedData) (xs : List JVal), mergeExtracted d (.arr xs) = d) :=
  ⟨fun _ _ => ⟨rfl, rfl, rfl, rfl, rfl, rfl, rfl, rfl, rfl, rfl, rfl⟩,
    fun _ => ⟨rfl, rfl⟩, fun _ _ => rfl, fun _ _ => rfl, fun _ _ => rfl, fun _ _ => rfl⟩

/-- C8 counterexample: for the path `/a@b` the selected segment is `a@b`,
which does not start with `@`; the code's `replace('@', '')` nevertheless
removes the interior `@`, so the inferred username is `ab`, not the
claimed unchanged `a@b`. -/
theorem claim8_counterexample :
    extractUsername (some ("/a@b")) = ("ab") ∧ ("ab" : String) ≠ ("a@b") :=
  ⟨rfl, by decide⟩

/-- C8 amended: username inference is total — parse failure and empty
paths give `unknown`, the stoplist segment is skipped in the documented
example, the first path segment is the fallback, and the final value has
the first occurrence of `@` (anywhere, not only leading) removed. -/
theorem claim8_username_inference :
    extractUsername none = ("unknown") ∧
    (∀ p : String, splitSegments p = [] → extractUsername (some p) = ("unknown")) ∧
    selectUsername [("user"), ("janedoe123")] = ("janedoe123") ∧
    (∀ (parts : List String) (u : String), parts.find? keepSegment = some u →
      selectUsername parts = jsReplaceEmpty u ("@")) ∧
    (∀ parts : List String, parts.find? keepSegment = none →
      selectUsername parts = jsReplaceEmpty (parts.headD ("unknown")) ("@")) ∧
    (∀ a b : List Char, '@' ∉ a → removeFirstSub ['@'] (a ++ '@' :: b) = a ++ b) := by
  refine ⟨rfl, ?_, rfl, ?_, ?_, ?_⟩
  · intro p h
    show selectUsername (splitSegments p) = ("unknown")
    rw [h]
    rfl
  · intro parts u h
    unfold selectUsername
    rw [h]
  · intro parts h
    unfold selectUsername
    rw [h]
  · intro a b h
    induction a with
    | nil => simp [removeFirstSub, List.isPrefixOf]
    | cons c cs ih =>
      have hc : ¬('@' = c) := fun hh => h (by rw [hh]; exact List.mem_cons_self _ _)
      have hcs : '@' ∉ cs := fun hh => h (List.mem_cons_of_mem _ hh)
      simp [removeFirstSub, List.isPrefixOf, hc, ih hcs]

/-- Witness for C8 at the empty path, the documented stoplist example, and
the find-selected branch. -/
theorem claim8_username_inference_witness :
    splitSegments ("/") = [] ∧ extractUsername (some ("/")) = ("unknown") ∧
    [("user"), ("janedoe123")].find? keepSegment = some ("janedoe123") ∧
    selectUsername [("user"), ("janedoe123")] = jsReplaceEmpty ("janedoe123") ("@") :=
  ⟨rfl, claim8_username_inference.2.1 ("/") rfl, rfl,
    claim8_username_inference.2.2.2.1 [("user"), ("janedoe123")] ("janedoe123") rfl⟩

/-- C9: the scrape stage absorbs transport failure into empty content, and
when the service responds with a failure flag any `markdownContent`
present in the payload is still salvaged and used as the scraped content
(the salvage expression is shared by both branches, so no flag hypothesis
is needed). -/
theorem claim9_scrape_salvage :
    scrapeStage ScrapeOutcome.transportError = (JVal.str "", JVal.arr []) ∧
    (∀ (ok : Bool) (kvs : List (String × JVal)) (m : JVal),
      lookupLast kvs ("data") = none → lookupLast kvs ("markdown") = some m →
      m.isNullish = false →
      (scrapeStage (ScrapeOutcome.reply ok (JVal.obj kvs))).1 = m) := by
  refine ⟨rfl, ?_⟩
  intro ok kvs m hd hm hnn
  unfold scrapeStage
  dsimp only [JVal.getProp]
  rw [hd, hm]
  split <;> exact jvalCoalesce_not_nullish m _ hnn

/-- Witness for C9: an application-level failure payload whose markdown is
salvaged. -/
theorem claim9_scrape_salvage_witness :
    lookupLast salvagePayload ("data") = none ∧
    lookupLast salvagePayload ("markdown") = some (JVal.str ("partial page text")) ∧
    (JVal.str ("partial page text")).isNullish = false ∧
    (scrapeStage (ScrapeOutcome.reply true (JVal.obj salvagePayload))).1
      = JVal.str ("partial page text") :=
  ⟨rfl, rfl, rfl, claim9_scrape_salvage.2 true salvagePayload _ rfl rfl rfl⟩

/-- C5: for every extraction record with a string username, a boolean
profile-picture field and boolean model flags, the normalizer resolves the
username (extracted if non-empty, else URL-derived) and recomputes the
output flags: `numbers_heavy` is true exactly when the resolved username
has at least four digit characters or the model flagged it, `very_short`
exactly when its length is at most three or the model flagged it,
`no_profile_pic` is the negation of `has_profile_pic`, and
`random_characters` is the model's flag passed through. -/
theorem claim5_flag_recompute
    (d : ExtractedData) (uFromUrl eu : String) (hp nh rc vs : Bool)
    (hu : d.username = JVal.str eu)
    (hhp : d.has_profile_pic = JVal.bool hp)
    (hnh : d.username_flags.optProp ("numbers_heavy") = JVal.bool nh)
    (hrc : d.username_flags.optProp ("random_characters") = JVal.bool rc)
    (hvs : d.username_flags.optProp ("very_short") = JVal.bool vs) :
    ∃ r, normalizeStep d uFromUrl = some r ∧
      r.profile.username = (if eu = "" then uFromUrl else eu) ∧
      r.profile.username_flags.numbers_heavy
        = JVal.bool (decide (4 ≤ countDigits (if eu = "" then uFromUrl else eu)) || nh) ∧
      r.profile.username_flags.very_short
        = JVal.bool (decide ((if eu = "" then uFromUrl else eu).length ≤ 3) || vs) ∧
      r.profile.username_flags.no_profile_pic = JVal.bool (!hp) ∧
      r.profile.username_flags.random_characters = JVal.bool rc := by
  have hres : (if d.username.truthy then d.username else JVal.str uFromUrl)
      = JVal.str (if eu = "" then uFromUrl else eu) := by
    rw [hu]
    by_cases h : eu = "" <;> simp [JVal.truthy, h]
  unfold normalizeStep
  rw [hres]
  dsimp only []
  rw [hnh, hrc, hvs, hhp]
  refine ⟨_, rfl, rfl, ?_, ?_, rfl, ?_⟩
  · by_cases h4 : 4 ≤ countDigits (if eu = "" then uFromUrl else eu)
    · simp [h4]
    · cases nh <;> simp [h4, JVal.truthy]
  · by_cases h3 : (if eu = "" then uFromUrl else eu).length ≤ 3
    · simp [h3]
    · cases vs <;> simp [h3, JVal.truthy]
  · cases rc <;> simp [JVal.truthy]

/-- Witness for C5 on a record whose username has exactly three digits and
whose model flags set only `random_characters`; the recomputed
`numbers_heavy` is false. -/
theorem claim5_flag_recompute_witness :
    dC5.username = JVal.str ("john123") ∧
    dC5.has_profile_pic = JVal.bool true ∧
    dC5.username_flags.optProp ("numbers_heavy") = JVal.bool false ∧
    dC5.username_flags.optProp ("random_characters") = JVal.bool true ∧
    dC5.username_flags.optProp ("very_short") = JVal.bool false ∧
    (decide (4 ≤ countDigits (if ("john123") = "" then ("urlname") else ("john123"))) || false)
      = false ∧
    (∃ r, normalizeStep dC5 ("urlname") = some r ∧
      r.profile.username = (if ("john123") = "" then ("urlname") else ("john123")) ∧
      r.profile.username_flags.numbers_heavy
        = JVal.bool (decide (4 ≤ countDigits (if ("john123") = "" then ("urlname")
            else ("john123"))) || false) ∧
      r.profile.username_flags.very_short
        = JVal.bool (decide ((if ("john123") = "" then ("urlname")
            else ("john123")).length ≤ 3) || false) ∧
      r.profile.username_flags.no_profile_pic = JVal.bool (!true) ∧
      r.profile.username_flags.random_characters = JVal.bool true) :=
  ⟨rfl, rfl, rfl, rfl, rfl, rfl,
    claim5_flag_recompute dC5 ("urlname") ("john123") true false true false
      rfl rfl rfl rfl rfl⟩

/-- C6: with a string username and numeric count fields, every one of the
five count fields of the final response is the nearest integer rounding of
the model value floored at zero. -/
theorem claim6_count_clamp
    (d : ExtractedData) (u eu : String) (fc gc pc bc ac : ℚ)
    (hu : d.username = JVal.str eu)
    (hf : d.followers_count = JVal.num fc) (hg : d.following_count = JVal.num gc)
    (hpc : d.posts_count = JVal.num pc) (hb : d.bio_length = JVal.num bc)
    (ha : d.account_age = JVal.num ac) :
    ∃ r, normalizeStep d u = some r ∧
      r.profile.followers_count = some (max 0 (jsRound fc)) ∧
      r.profile.following_count = some (max 0 (jsRound gc)) ∧
      r.profile.posts_count = some (max 0 (jsRound pc)) ∧
      r.profile.bio_length = some (max 0 (jsRound bc)) ∧
      r.profile.account_age = some (max 0 (jsRound ac)) := by
  have hres : (if d.username.truthy then d.username else JVal.str u)
      = JVal.str (if eu = "" then u else eu) := by
    rw [hu]
    by_cases h : eu = "" <;> simp [JVal.truthy, h]
  unfold normalizeStep
  rw [hres]
  dsimp only []
  rw [hf, hg, hpc, hb, ha]
  exact ⟨_, rfl, rfl, rfl, rfl, rfl, rfl⟩

/-- Witness for C6 on a record with a negative, a large integral and a
fractional count: the outputs are 0, the unchanged integer, and the
rounded value. -/
theorem claim6_count_clamp_witness :
    dC6.followers_count = JVal.num (-5) ∧
    dC6.following_count = JVal.num 1200000 ∧
    dC6.posts_count = JVal.num (5 / 2) ∧
    max 0 (jsRound (-5)) = (0 : ℤ) ∧
    max 0 (jsRound 1200000) = (1200000 : ℤ) ∧
    max 0 (jsRound (5 / 2)) = (3 : ℤ) ∧
    (∃ r, normalizeStep dC6 ("x") = some r ∧
      r.profile.followers_count = some (max 0 (jsRound (-5))) ∧
      r.profile.following_count = some (max 0 (jsRound 1200000)) ∧
      r.profile.posts_count = some (max 0 (jsRound (5 / 2))) ∧
      r.profile.bio_length = some (max 0 (jsRound 0)) ∧
      r.profile.account_age = some (max 0 (jsRound 0))) :=
  ⟨rfl, rfl, rfl, by norm_num [jsRound], by norm_num [jsRound], by norm_num [jsRound],
    claim6_count_clamp dC6 ("x") ("alice") (-5) 1200000 (5 / 2) 0 0
      rfl rfl rfl rfl rfl rfl⟩

/-- Clamping the default zero count yields zero. -/
theorem clampCount_zero : clampCount (JVal.num 0) = some 0 := by
  show (toNumber (JVal.num 0)).map _ = _
  norm_num [toNumber, jsRound, Option.map]

/-- The default extraction record flows through the normalizer to exactly
the default response. -/
theorem normalizeStep_default (un pl : String) :
    normalizeStep (defaultExtractedData un pl) un = some (defaultResponse un pl) := by
  unfold normalizeStep
  dsimp only [defaultExtractedData]
  rw [ite_self]
  dsimp only []
  rw [clampCount_zero]
  rfl

/-- C1: when the scraping call throws and the completion call also fails
(transport error, non-success status, or unreadable body), the extractor
still runs on empty content and the normalizer still runs on the default
record, and the final response is the success envelope holding the default
profile: `confidence` low, all five counts zero, `no_profile_pic` false,
and the URL-derived username — never a hard failure. -/
theorem claim1_default_roundtrip
    (pp : String → Option String) (ctx : RequestCtx) (a : AiOutcome)
    (bv : JVal) (u : String)
    (h1 : ctx.hasAuthHeader = true) (h2 : ctx.authValid = true)
    (h3 : ctx.body = some bv) (h4 : bv.getProp ("url") = some (JVal.str u))
    (h5 : (JVal.str u).truthy = true)
    (h6 : ctx.hasFirecrawlKey = true) (h7 : ctx.hasLovableKey = true)
    (h8 : a.failed = true) :
    normalizeStep (defaultExtractedData (extractUsername (pp u)) (detectPlatform u))
        (extractUsername (pp u))
      = some (defaultResponse (extractUsername (pp u)) (detectPlatform u)) ∧
    handleRequest pp ctx ScrapeOutcome.transportError a
      = HandlerResult.successResp (defaultResponse (extractUsername (pp u)) (detectPlatform u)) := by
  refine ⟨normalizeStep_default _ _, ?_⟩
  unfold handleRequest
  simp [h1, h2, h3, h4, h5, h6, h7,
    extractAi_failed a (defaultExtractedData (extractUsername (pp u)) (detectPlatform u)) h8,
    normalizeStep_default]
  rfl

/-- Witness for C1: a fully authorized request for an Instagram profile
URL whose scrape throws and whose completion call returns a non-success
status. -/
theorem claim1_default_roundtrip_witness :
    ctxEx.hasAuthHeader = true ∧ ctxEx.authValid = true ∧
    ctxEx.body = some (JVal.obj [(("url"), JVal.str urlEx)]) ∧
    (JVal.obj [(("url"), JVal.str urlEx)]).getProp ("url") = some (JVal.str urlEx) ∧
    (JVal.str urlEx).truthy = true ∧
    ctxEx.hasFirecrawlKey = true ∧ ctxEx.hasLovableKey = true ∧
    AiOutcome.httpError.failed = true ∧
    extractUsername (ppEx urlEx) = ("alice") ∧
    detectPlatform urlEx = ("Instagram") ∧
    handleRequest ppEx ctxEx ScrapeOutcome.transportError AiOutcome.httpError
      = HandlerResult.successResp
          (defaultResponse (extractUsername (ppEx urlEx)) (detectPlatform urlEx)) ∧
    (defaultResponse ("alice") ("Instagram")).success = true ∧
    (defaultResponse ("alice") ("Instagram")).confidence = JVal.str ("low") ∧
    (defaultResponse ("alice") ("Instagram")).profile.followers_count = some 0 ∧
    (defaultResponse ("alice") ("Instagram")).profile.following_count = some 0 ∧
    (defaultResponse ("alice") ("Instagram")).profile.posts_count = some 0 ∧
    (defaultResponse ("alice") ("Instagram")).profile.bio_length = some 0 ∧
    (defaultResponse ("alice") ("Instagram")).profile.account_age = some 0 ∧
    (defaultResponse ("alice") ("Instagram")).profile.username_flags.no_profile_pic
      = JVal.bool false ∧
    (defaultResponse ("alice") ("Instagram")).profile.username = ("alice") :=
  ⟨rfl, rfl, rfl, rfl, rfl, rfl, rfl, rfl, rfl, rfl,
    (claim1_default_roundtrip ppEx ctxEx AiOutcome.httpError
      (JVal.obj [(("url"), JVal.str urlEx)]) urlEx rfl rfl rfl rfl rfl rfl rfl rfl).2,
    rfl, rfl, rfl, rfl, rfl, rfl, rfl, rfl, rfl⟩

/-- C3 counterexample: a request passing every precondition whose scrape
responds with a failure flag and a non-string `markdown` value; the
salvaged value makes the prompt construction throw, so this scrape failure
surfaces as an error response instead of being absorbed into a successful
one. -/
theorem claim3_counterexample :
    precondError ctxEx = none ∧
    (scrapeStage (ScrapeOutcome.reply false badScrapePayload)).1 = JVal.num 123 ∧
    handleRequest ppEx ctxEx (ScrapeOutcome.reply false badScrapePayload) AiOutcome.transportError
      = HandlerResult.errorResp 500 ("Internal server error") :=
  ⟨rfl, rfl, rfl⟩

/-- C3 amended: every response is one of the three precondition errors,
the generic internal error, or a `success = true` envelope; a precondition
error is determined by the request context alone and short-circuits before
any stage outcome can matter; and a scrape failure whose salvaged markdown
is still sliceable, combined with an extraction that degrades to the
default record, always yields a successful response.  (A scrape payload
whose `markdown` value is neither string nor array makes the prompt
construction throw and surfaces as the internal error — see the
counterexample.) -/
theorem claim3_error_surface :
    (∀ (pp : String → Option String) (ctx : RequestCtx) (s : ScrapeOutcome) (a : AiOutcome),
      allowedResult (handleRequest pp ctx s a) = true) ∧
    (∀ (pp : String → Option String) (ctx : RequestCtx) (s : ScrapeOutcome) (a : AiOutcome)
      (r : HandlerResult), precondError ctx = some r → handleRequest pp ctx s a = r) ∧
    (∀ (pp : String → Option String) (ctx : RequestCtx) (s : ScrapeOutcome) (a : AiOutcome)
      (bv : JVal) (u : String),
      ctx.hasAuthHeader = true → ctx.authValid = true → ctx.body = some bv →
      bv.getProp ("url") = some (JVal.str u) → (JVal.str u).truthy = true →
      ctx.hasFirecrawlKey = true → ctx.hasLovableKey = true →
      sliceable (scrapeStage s).1 = true →
      extractAi a (defaultExtractedData (extractUsername (pp u)) (detectPlatform u))
        = defaultExtractedData (extractUsername (pp u)) (detectPlatform u) →
      ∃ r, handleRequest pp ctx s a = HandlerResult.successResp r ∧ r.success = true) := by
  refine ⟨?_, ?_, ?_⟩
  · intro pp ctx s a
    simp only [handleRequest]
    repeat' split
    all_goals try rfl
    all_goals rename_i heq
    all_goals exact normalizeStep_success _ _ _ heq
  · intro pp ctx s a r h
    unfold precondError at h
    simp only [handleRequest]
    repeat' split at h
    all_goals simp_all
  · intro pp ctx s a bv u h1 h2 h3 h4 h5 h6 h7 hsl hext
    unfold handleRequest
    simp [h1, h2, h3, h4, h5, h6, h7, hsl, hext, normalizeStep_default]
    rfl

/-- Witness for C3: a missing-auth context producing the 401 short-circuit
regardless of outcomes, and the fully-authorized both-services-down
request producing an allowed, successful response. -/
theorem claim3_error_surface_witness :
    precondError (⟨false, true, none, true, true⟩ : RequestCtx)
      = some (HandlerResult.errorResp 401 ("Unauthorized")) ∧
    handleRequest ppEx (⟨false, true, none, true, true⟩ : RequestCtx)
        ScrapeOutcome.transportError AiOutcome.transportError
      = HandlerResult.errorResp 401 ("Unauthorized") ∧
    allowedResult (handleRequest ppEx ctxEx ScrapeOutcome.transportError AiOutcome.transportError)
      = true ∧
    (∃ r, handleRequest ppEx ctxEx ScrapeOutcome.transportError AiOutcome.transportError
        = HandlerResult.successResp r ∧ r.success = true) :=
  ⟨rfl,
    claim3_error_surface.2.1 ppEx (⟨false, true, none, true, true⟩ : RequestCtx)
      ScrapeOutcome.transportError AiOutcome.transportError
      (HandlerResult.errorResp 401 ("Unauthorized")) rfl,
    claim3_error_surface.1 ppEx ctxEx ScrapeOutcome.transportError AiOutcome.transportError,
    claim3_error_surface.2.2 ppEx ctxEx ScrapeOutcome.transportError AiOutcome.transportError
      (JVal.obj [(("url"), JVal.str urlEx)]) urlEx rfl rfl rfl rfl rfl rfl rfl rfl rfl⟩

end ProfileScrape
